import Mathlib

/-!
# Verification of the `lightgbm-rust` safe wrapper

A shallow embedding of the crate's run-time core (`src/error.rs`,
`src/model.rs`) and proofs about it.

Modelling conventions:

* The native LightGBM library is an external collaborator; we model it as a
  record of deterministic functions (`NativeLib`).  Each wrapper operation
  returns, next to its result, the list of native calls it issued
  (`List NativeCall`), in order.
* Machine integers are modelled as `Int` (for `i32`/`i64` values) and `Nat`
  (for `usize` values) with explicit two's-complement casts for a 64-bit
  target (`i32_as_usize`, `i64_as_usize`) and an explicit bound in
  `usize_checked_mul`.
* Floating-point buffers are pure pass-through data for the wrapper (it never
  inspects or computes with the elements), so buffer elements are modelled by
  their bit patterns as `Nat`; the all-zero bit pattern is the encoding of
  `0.0`, hence `vec![0.0; n]` becomes `List.replicate n 0`.
* Rust `&str` values are Lean `String`s; Rust byte buffers are `List Nat`
  (each entry `< 256`).  `std::str::from_utf8` is embedded as `from_utf8`
  below, including the exact `Utf8Error` rendering used by `format!`.
* File-system paths are modelled as Unicode strings (the
  `Path::to_str` invalid-UTF-8 branch concerns OS-specific byte paths and is
  not exercised by any property below).
-/

/-! ## Machine-integer casts (64-bit target) -/

/-- `usize::BITS = 64`: the wrapper targets 64-bit platforms. -/
def USIZE_BITS : Nat := 64

/-- Two's-complement cast `as usize` applied to an `i32` value
(sign-extension then reinterpretation): `n mod 2^64` as a `Nat`. -/
def i32_as_usize (n : Int) : Nat := (n % (2 : Int) ^ USIZE_BITS).toNat

/-- Two's-complement cast `as usize` applied to an `i64` value. -/
def i64_as_usize (n : Int) : Nat := (n % (2 : Int) ^ USIZE_BITS).toNat

/-- `usize::checked_mul`: `some (a * b)` when the product fits in 64 bits,
`none` on overflow. -/
def usize_checked_mul (a b : Nat) : Option Nat :=
  if a * b < 2 ^ USIZE_BITS then some (a * b) else none

/-- The `i32` value range, `-2^31 ≤ n < 2^31`. -/
def inI32Range (n : Int) : Prop := -(2 ^ 31) ≤ n ∧ n < 2 ^ 31

instance (n : Int) : Decidable (inI32Range n) := by
  unfold inI32Range; infer_instance

/-! ## UTF-8 decoding (`std::str::from_utf8`)

Embeds Rust's UTF-8 validation: the decoder accepts exactly the canonical
(shortest-form, surrogate-free, `≤ U+10FFFF`) encodings, and on failure
reports the byte index at which the first invalid sequence starts
(`valid_up_to`) together with the length of the invalid prefix of that
sequence (`error_len`, `none` when the input ends inside a sequence). -/

/-- The error value of `std::str::from_utf8` (`str::Utf8Error`). -/
structure Utf8Err where
  valid_up_to : Nat
  error_len : Option Nat
  deriving DecidableEq, Repr

/-- The `Display` rendering of `str::Utf8Error`, as interpolated by
`format!("...: {}", e)`. -/
def Utf8Err.display (e : Utf8Err) : String :=
  match e.error_len with
  | some n =>
      let i := e.valid_up_to
      s!"invalid utf-8 sequence of {n} bytes from index {i}"
  | none =>
      let i := e.valid_up_to
      s!"incomplete utf-8 byte sequence from index {i}"

/-- A UTF-8 continuation byte: `0x80 ≤ b ≤ 0xBF`. -/
def isUtf8Cont (b : Nat) : Bool := 0x80 ≤ b && b ≤ 0xBF

/-- Decode a byte list as UTF-8 starting at absolute byte index `i`,
returning the decoded characters or the `Utf8Err` for the first invalid
sequence.  Follows Rust's `run_utf8_validation` byte-class table. -/
def utf8DecodeFrom (i : Nat) : List Nat → Except Utf8Err (List Char)
  | [] => .ok []
  | b0 :: rest =>
    if b0 < 0x80 then
      -- one-byte (ASCII) sequence
      (utf8DecodeFrom (i + 1) rest).map (fun cs => Char.ofNat b0 :: cs)
    else if b0 < 0xC2 then
      -- stray continuation byte, or overlong two-byte lead (0xC0/0xC1)
      .error ⟨i, some 1⟩
    else if b0 ≤ 0xDF then
      -- two-byte sequence
      match rest with
      | [] => .error ⟨i, none⟩
      | b1 :: rest1 =>
        if isUtf8Cont b1 then
          (utf8DecodeFrom (i + 2) rest1).map
            (fun cs => Char.ofNat ((b0 - 0xC0) * 0x40 + (b1 - 0x80)) :: cs)
        else .error ⟨i, some 1⟩
    else if b0 ≤ 0xEF then
      -- three-byte sequence; the second byte's range depends on the lead
      match rest with
      | [] => .error ⟨i, none⟩
      | b1 :: rest1 =>
        let b1ok :=
          if b0 = 0xE0 then 0xA0 ≤ b1 && b1 ≤ 0xBF
          else if b0 = 0xED then 0x80 ≤ b1 && b1 ≤ 0x9F
          else isUtf8Cont b1
        if b1ok then
          match rest1 with
          | [] => .error ⟨i, none⟩
          | b2 :: rest2 =>
            if isUtf8Cont b2 then
              (utf8DecodeFrom (i + 3) rest2).map
                (fun cs =>
                  Char.ofNat
                    ((b0 - 0xE0) * 0x1000 + (b1 - 0x80) * 0x40 + (b2 - 0x80))
                    :: cs)
            else .error ⟨i, some 2⟩
        else .error ⟨i, some 1⟩
    else if b0 ≤ 0xF4 then
      -- four-byte sequence; the second byte's range depends on the lead
      match rest with
      | [] => .error ⟨i, none⟩
      | b1 :: rest1 =>
        let b1ok :=
          if b0 = 0xF0 then 0x90 ≤ b1 && b1 ≤ 0xBF
          else if b0 = 0xF4 then 0x80 ≤ b1 && b1 ≤ 0x8F
          else isUtf8Cont b1
        if b1ok then
          match rest1 with
          | [] => .error ⟨i, none⟩
          | b2 :: rest2 =>
            if isUtf8Cont b2 then
              match rest2 with
              | [] => .error ⟨i, none⟩
              | b3 :: rest3 =>
                if isUtf8Cont b3 then
                  (utf8DecodeFrom (i + 4) rest3).map
                    (fun cs =>
                      Char.ofNat
                        ((b0 - 0xF0) * 0x40000 + (b1 - 0x80) * 0x1000 +
                          (b2 - 0x80) * 0x40 + (b3 - 0x80)) :: cs)
                else .error ⟨i, some 3⟩
            else .error ⟨i, some 2⟩
        else .error ⟨i, some 1⟩
    else
      -- 0xF5..=0xFF: never valid in UTF-8
      .error ⟨i, some 1⟩

/-- `std::str::from_utf8`: decode a byte buffer into text. -/
def from_utf8 (bytes : List Nat) : Except Utf8Err String :=
  (utf8DecodeFrom 0 bytes).map fun cs => ⟨cs⟩

/-! ## `CString::new` (interior-NUL check)

`CString::new(s)` scans the UTF-8 bytes of `s` for a `0x00` byte; in valid
UTF-8 a zero byte occurs exactly where the character `U+0000` occurs.
`findNulByte` returns the byte position of the first such character,
accumulating the UTF-8 width of the characters before it. -/

/-- Byte position of the first NUL character in a character list, if any. -/
def findNulByte : List Char → Nat → Option Nat
  | [], _ => none
  | c :: cs, acc =>
    if c = Char.ofNat 0 then some acc else findNulByte cs (acc + c.utf8Size)

/-- The `Display` rendering of `std::ffi::NulError`. -/
def nulErrorDisplay (pos : Nat) : String :=
  s!"nul byte found in provided data at position: {pos}"

/-! ## The native library as a deterministic collaborator -/

/-- LightGBM's element-type tag for 32-bit floats
(`C_API_DTYPE_FLOAT32` in the external `c_api.h`). -/
def C_API_DTYPE_FLOAT32 : Int := 0

/-- LightGBM's element-type tag for 64-bit floats
(`C_API_DTYPE_FLOAT64` in the external `c_api.h`). -/
def C_API_DTYPE_FLOAT64 : Int := 1

/-- One call issued to the native library, with every argument the wrapper
passes across the FFI boundary.  For `predictForMat` the fields follow the C
signature: handle, data buffer, data type tag, `nrow`, `ncol`,
`is_row_major`, `predict_type`, `start_iteration`, `num_iteration`,
`parameter` string (`none` = null pointer), the value of the in/out
`out_len` parameter on entry, and the output buffer passed in
(`none` = null pointer). -/
inductive NativeCall where
  | createFromModelfile (path : String)
  | loadModelFromString (model : String)
  | getNumFeature (handle : Nat)
  | getNumClasses (handle : Nat)
  | predictForMat (handle : Nat) (data : List Nat)
      (dataType numRows numCols isRowMajor predictType startIteration
        numIteration : Int)
      (parameter : Option String) (outLenIn : Int)
      (outResult : Option (List Nat))
  | getLastError
  | boosterFree (handle : Nat)
  deriving DecidableEq, Repr

/-- The native library modelled as a fixed record of deterministic
functions.  Handles are opaque `Nat` pointer values.  Each `Int` result
component is the C return code; out-parameters become result components.
`predictForMat`'s result is (return code, value written to `out_len`,
contents of the output buffer after the call). -/
structure NativeLib where
  createFromModelfile : String → Int × Int × Nat
  loadModelFromString : String → Int × Int × Nat
  getNumFeature : Nat → Int × Int
  getNumClasses : Nat → Int × Int
  predictForMat : Nat → List Nat → Int → Int → Int → Int → Int → Int → Int →
      Option String → Int → Option (List Nat) → Int × Int × List Nat
  getLastError : List Nat

deriving instance DecidableEq for Except

/-! ## `src/error.rs` -/

/-- The crate's structured error (`LightGBMError`). -/
structure LightGBMError where
  description : String
  deriving DecidableEq, Repr

/-- `LightGBMError::fetch_lightgbm_error`: read the native last-error
C string and decode it, falling back to `"Unknown error"` when the bytes are
not valid UTF-8 (`CStr::to_str(..).unwrap_or("Unknown error")`). -/
def LightGBMError.fetch_lightgbm_error (native : NativeLib) : LightGBMError :=
  match from_utf8 native.getLastError with
  | .ok s => { description := s }
  | .error _ => { description := "Unknown error" }

/-- `LightGBMError::check_return_value`: `0` is success; any non-zero code
fetches the native last error (issuing the `getLastError` native call) and
wraps it. -/
def LightGBMError.check_return_value (native : NativeLib) (ret_val : Int) :
    Except LightGBMError Unit × List NativeCall :=
  if ret_val = 0 then (.ok (), [])
  else (.error (LightGBMError.fetch_lightgbm_error native),
        [NativeCall.getLastError])

/-! ## `src/model.rs` -/

/-- The safe wrapper: owns exactly one opaque native handle.  (The
`num_iterations` out-parameter of the create calls is *not* a field.) -/
structure Booster where
  handle : Nat
  deriving DecidableEq, Repr

/-- `Booster::load`: NUL-check the path, call the native create-from-file
entry point, translate its return code; on success wrap the handle.  The
`num_iterations` out-parameter is received into a local and dropped. -/
def Booster.load (native : NativeLib) (path : String) :
    Except LightGBMError Booster × List NativeCall :=
  match findNulByte path.data 0 with
  | some pos =>
      (.error { description :=
          "Path contains NUL byte: " ++ nulErrorDisplay pos }, [])
  | none =>
    let (ret, _num_iterations, handle) := native.createFromModelfile path
    match LightGBMError.check_return_value native ret with
    | (.ok _, t) => (.ok { handle := handle },
        NativeCall.createFromModelfile path :: t)
    | (.error e, t) => (.error e, NativeCall.createFromModelfile path :: t)

/-- `Booster::load_from_string`: NUL-check the model text, call the native
load-from-string entry point, translate its return code; on success wrap the
handle. -/
def Booster.load_from_string (native : NativeLib) (model_str : String) :
    Except LightGBMError Booster × List NativeCall :=
  match findNulByte model_str.data 0 with
  | some pos =>
      (.error { description :=
          "Model string contains NUL byte: " ++ nulErrorDisplay pos }, [])
  | none =>
    let (ret, _num_iterations, handle) := native.loadModelFromString model_str
    match LightGBMError.check_return_value native ret with
    | (.ok _, t) => (.ok { handle := handle },
        NativeCall.loadModelFromString model_str :: t)
    | (.error e, t) => (.error e, NativeCall.loadModelFromString model_str :: t)

/-- `Booster::load_from_buffer`: decode the bytes as UTF-8; on failure fail
locally with the decode error, otherwise delegate to `load_from_string`. -/
def Booster.load_from_buffer (native : NativeLib) (buffer : List Nat) :
    Except LightGBMError Booster × List NativeCall :=
  match from_utf8 buffer with
  | .error e =>
      (.error { description :=
          "Invalid UTF-8 in model buffer: " ++ e.display }, [])
  | .ok model_str => Booster.load_from_string native model_str

/-- `Booster::num_features`: one native call writing an integer
out-parameter. -/
def Booster.num_features (native : NativeLib) (b : Booster) :
    Except LightGBMError Int × List NativeCall :=
  let (ret, n) := native.getNumFeature b.handle
  match LightGBMError.check_return_value native ret with
  | (.ok _, t) => (.ok n, NativeCall.getNumFeature b.handle :: t)
  | (.error e, t) => (.error e, NativeCall.getNumFeature b.handle :: t)

/-- `Booster::num_classes`: one native call writing an integer
out-parameter. -/
def Booster.num_classes (native : NativeLib) (b : Booster) :
    Except LightGBMError Int × List NativeCall :=
  let (ret, n) := native.getNumClasses b.handle
  match LightGBMError.check_return_value native ret with
  | (.ok _, t) => (.ok n, NativeCall.getNumClasses b.handle :: t)
  | (.error e, t) => (.error e, NativeCall.getNumClasses b.handle :: t)

/-- The overflow message `predict`/`predict_f32` format when
`checked_mul` fails. -/
def overflowMsg (num_rows num_cols : Int) : String :=
  s!"Integer overflow when computing expected data size: num_rows ({num_rows}) * num_cols ({num_cols})"

/-- The size-mismatch message `predict`/`predict_f32` format when the
declared shape does not match the buffer length. -/
def mismatchMsg (expected : Nat) (num_rows num_cols : Int) (actual : Nat) :
    String :=
  s!"Input data size mismatch: expected {expected} elements ({num_rows}×{num_cols}), got {actual}"

/-- `Booster::predict`: validate the declared shape against the buffer
length (overflow-checked), then run the native two-phase dense-matrix
prediction with the 64-bit element tag.  The trace records every native call
with the exact arguments passed. -/
def Booster.predict (native : NativeLib) (b : Booster) (data : List Nat)
    (num_rows num_cols predict_type : Int) :
    Except LightGBMError (List Nat) × List NativeCall :=
  match usize_checked_mul (i32_as_usize num_rows) (i32_as_usize num_cols) with
  | none =>
      (.error { description := overflowMsg num_rows num_cols }, [])
  | some expected_len =>
    let data_len := data.length
    if expected_len ≠ data_len then
      (.error { description := mismatchMsg expected_len num_rows num_cols data_len },
       [])
    else
      let call1 := NativeCall.predictForMat b.handle data C_API_DTYPE_FLOAT64
        num_rows num_cols 1 predict_type 0 (-1) none 0 none
      let (ret1, out_len, _) := native.predictForMat b.handle data
        C_API_DTYPE_FLOAT64 num_rows num_cols 1 predict_type 0 (-1) none 0 none
      match LightGBMError.check_return_value native ret1 with
      | (.error e, t) => (.error e, call1 :: t)
      | (.ok _, _) =>
        let out_result := List.replicate (i64_as_usize out_len) 0
        let call2 := NativeCall.predictForMat b.handle data C_API_DTYPE_FLOAT64
          num_rows num_cols 1 predict_type 0 (-1) none out_len (some out_result)
        let (ret2, _, written) := native.predictForMat b.handle data
          C_API_DTYPE_FLOAT64 num_rows num_cols 1 predict_type 0 (-1) none
          out_len (some out_result)
        match LightGBMError.check_return_value native ret2 with
        | (.error e, t) => (.error e, call1 :: call2 :: t)
        | (.ok _, _) => (.ok written, [call1, call2])

/-- `Booster::predict_f32`: same algorithm as `predict` with the 32-bit
element tag and a 32-bit input buffer (elements modelled as bit patterns). -/
def Booster.predict_f32 (native : NativeLib) (b : Booster) (data : List Nat)
    (num_rows num_cols predict_type : Int) :
    Except LightGBMError (List Nat) × List NativeCall :=
  match usize_checked_mul (i32_as_usize num_rows) (i32_as_usize num_cols) with
  | none =>
      (.error { description := overflowMsg num_rows num_cols }, [])
  | some expected_len =>
    let data_len := data.length
    if expected_len ≠ data_len then
      (.error { description := mismatchMsg expected_len num_rows num_cols data_len },
       [])
    else
      let call1 := NativeCall.predictForMat b.handle data C_API_DTYPE_FLOAT32
        num_rows num_cols 1 predict_type 0 (-1) none 0 none
      let (ret1, out_len, _) := native.predictForMat b.handle data
        C_API_DTYPE_FLOAT32 num_rows num_cols 1 predict_type 0 (-1) none 0 none
      match LightGBMError.check_return_value native ret1 with
      | (.error e, t) => (.error e, call1 :: t)
      | (.ok _, _) =>
        let out_result := List.replicate (i64_as_usize out_len) 0
        let call2 := NativeCall.predictForMat b.handle data C_API_DTYPE_FLOAT32
          num_rows num_cols 1 predict_type 0 (-1) none out_len (some out_result)
        let (ret2, _, written) := native.predictForMat b.handle data
          C_API_DTYPE_FLOAT32 num_rows num_cols 1 predict_type 0 (-1) none
          out_len (some out_result)
        match LightGBMError.check_return_value native ret2 with
        | (.error e, t) => (.error e, call1 :: call2 :: t)
        | (.ok _, _) => (.ok written, [call1, call2])

/-- `impl Drop for Booster`: the destructor issues the single native
free-handle call. -/
def Booster.drop (b : Booster) : List NativeCall :=
  [NativeCall.boosterFree b.handle]

/-- Recognizer for free-handle events, used to count release calls. -/
def NativeCall.isBoosterFree : NativeCall → Bool
  | NativeCall.boosterFree _ => true
  | _ => false

/-! ## Spec-side reference: the two-phase prediction protocol

`two_phase_protocol` is written from the spec's words (§4.3 steps 3–6): one
native call with a null output pointer and zero-initialized output-length
parameter, always row-major, full iteration range (start 0, all iterations);
then a zero-initialized buffer of exactly the reported length, a second call
with that buffer, and the filled buffer returned verbatim on success. -/
def two_phase_protocol (native : NativeLib) (handle : Nat) (data : List Nat)
    (dtype num_rows num_cols predict_type : Int) :
    Except LightGBMError (List Nat) × List NativeCall :=
  -- first pass: null output pointer, out_len initialized to zero
  let call1 := NativeCall.predictForMat handle data dtype
    num_rows num_cols 1 predict_type 0 (-1) none 0 none
  let (ret1, reported_len, _) := native.predictForMat handle data dtype
    num_rows num_cols 1 predict_type 0 (-1) none 0 none
  match LightGBMError.check_return_value native ret1 with
  | (.error e, t) => (.error e, call1 :: t)
  | (.ok _, _) =>
    -- second pass: zero-initialized buffer of exactly the reported length
    let buf := List.replicate (i64_as_usize reported_len) 0
    let call2 := NativeCall.predictForMat handle data dtype
      num_rows num_cols 1 predict_type 0 (-1) none reported_len (some buf)
    let (ret2, _, filled) := native.predictForMat handle data dtype
      num_rows num_cols 1 predict_type 0 (-1) none reported_len (some buf)
    match LightGBMError.check_return_value native ret2 with
    | (.error e, t) => (.error e, call1 :: call2 :: t)
    | (.ok _, _) => (.ok filled, [call1, call2])

/-! ## Concrete native instances used to evaluate the theorems -/

/-- A concrete deterministic native library used to instantiate the
universally quantified theorems on concrete inputs. -/
def testNative : NativeLib where
  createFromModelfile := fun _ => (0, 7, 42)
  loadModelFromString := fun _ => (0, 7, 42)
  getNumFeature := fun _ => (0, 4)
  getNumClasses := fun _ => (0, 1)
  predictForMat := fun _ _ _ _ _ _ _ _ _ _ _ outBuf =>
    match outBuf with
    | none => (0, 3, [])
    | some buf => (0, 3, buf.map (fun _ => 5))
  getLastError := [98, 111, 111, 109]

/-- A native library whose create-from-file call reports 5 iterations. -/
def natIterA : NativeLib where
  createFromModelfile := fun _ => (0, 5, 42)
  loadModelFromString := fun _ => (0, 5, 42)
  getNumFeature := fun _ => (0, 4)
  getNumClasses := fun _ => (0, 1)
  predictForMat := fun _ _ _ _ _ _ _ _ _ _ _ _ => (0, 0, [])
  getLastError := []

/-- A native library identical to `natIterA` except that its
create-from-file call reports 9 iterations. -/
def natIterB : NativeLib where
  createFromModelfile := fun _ => (0, 9, 42)
  loadModelFromString := fun _ => (0, 9, 42)
  getNumFeature := fun _ => (0, 4)
  getNumClasses := fun _ => (0, 1)
  predictForMat := fun _ _ _ _ _ _ _ _ _ _ _ _ => (0, 0, [])
  getLastError := []

/-! ## Theorems for the claims -/

/-- **C1.** For every pair of counts whose overflow-checked product is some
`len` different from the data length, `predict` and `predict_f32` return the
input-shape mismatch error stating expected vs. actual sizes, with an empty
native-call trace (so no foreign call is issued). -/
theorem predict_shape_mismatch_before_native
    (native : NativeLib) (b : Booster) (data64 data32 : List Nat)
    (num_rows num_cols predict_type : Int) (len : Nat)
    (hr : inI32Range num_rows) (hc : inI32Range num_cols)
    (hmul : usize_checked_mul (i32_as_usize num_rows) (i32_as_usize num_cols)
      = some len)
    (h64 : len ≠ data64.length) (h32 : len ≠ data32.length) :
    Booster.predict native b data64 num_rows num_cols predict_type =
      (.error { description :=
          mismatchMsg len num_rows num_cols data64.length }, []) ∧
    Booster.predict_f32 native b data32 num_rows num_cols predict_type =
      (.error { description :=
          mismatchMsg len num_rows num_cols data32.length }, []) := by
  constructor
  · simp only [Booster.predict, hmul, h64, if_true, ne_eq, not_false_iff]
  · simp only [Booster.predict_f32, hmul, h32, if_true, ne_eq, not_false_iff]

/-- Witness for C1: a 2×3 declaration against a 1-element (resp. 2-element)
buffer is rejected with the exact mismatch message and an empty trace. -/
theorem predict_shape_mismatch_before_native_witness :
    inI32Range 2 ∧ inI32Range 3 ∧
    usize_checked_mul (i32_as_usize 2) (i32_as_usize 3) = some 6 ∧
    (6 : Nat) ≠ ([10] : List Nat).length ∧
    (6 : Nat) ≠ ([10, 20] : List Nat).length ∧
    (Booster.predict testNative ⟨42⟩ [10] 2 3 0 =
      (.error { description :=
        "Input data size mismatch: expected 6 elements (2×3), got 1" }, []) ∧
     Booster.predict_f32 testNative ⟨42⟩ [10, 20] 2 3 0 =
      (.error { description :=
        "Input data size mismatch: expected 6 elements (2×3), got 2" }, [])) := by
  refine ⟨by decide, by decide, by decide, by decide, by decide, ?_⟩
  have h := predict_shape_mismatch_before_native testNative ⟨42⟩ [10] [10, 20]
    2 3 0 6 (by decide) (by decide) (by decide) (by decide) (by decide)
  exact ⟨by rw [h.1]; decide, by rw [h.2]; decide⟩

/-- **C2.** For every pair of counts whose checked product overflows the
64-bit address-sized integer, `predict` and `predict_f32` fail with the
overflow error citing both operands, with an empty native-call trace. -/
theorem predict_overflow_before_native
    (native : NativeLib) (b : Booster) (data64 data32 : List Nat)
    (num_rows num_cols predict_type : Int)
    (hr : inI32Range num_rows) (hc : inI32Range num_cols)
    (hmul : usize_checked_mul (i32_as_usize num_rows) (i32_as_usize num_cols)
      = none) :
    Booster.predict native b data64 num_rows num_cols predict_type =
      (.error { description := overflowMsg num_rows num_cols }, []) ∧
    Booster.predict_f32 native b data32 num_rows num_cols predict_type =
      (.error { description := overflowMsg num_rows num_cols }, []) := by
  constructor
  · simp only [Booster.predict, hmul]
  · simp only [Booster.predict_f32, hmul]

/-- Witness for C2: `num_rows = -1` casts to `2^64 - 1`, so the checked
product with `num_cols = 2` overflows; both predictions fail locally with
the overflow message citing `-1` and `2`. -/
theorem predict_overflow_before_native_witness :
    inI32Range (-1) ∧ inI32Range 2 ∧
    usize_checked_mul (i32_as_usize (-1)) (i32_as_usize 2) = none ∧
    (Booster.predict testNative ⟨42⟩ [] (-1) 2 0 =
      (.error { description :=
        "Integer overflow when computing expected data size: num_rows (-1) * num_cols (2)" }, []) ∧
     Booster.predict_f32 testNative ⟨42⟩ [] (-1) 2 0 =
      (.error { description :=
        "Integer overflow when computing expected data size: num_rows (-1) * num_cols (2)" }, [])) := by
  refine ⟨by decide, by decide, by decide, ?_⟩
  have h := predict_overflow_before_native testNative ⟨42⟩ [] [] (-1) 2 0
    (by decide) (by decide) (by decide)
  exact ⟨by rw [h.1]; decide, by rw [h.2]; decide⟩

lemma check_return_value_no_free (native : NativeLib) (r : Int) :
    (LightGBMError.check_return_value native r).2.countP
      (fun e => e.isBoosterFree) = 0 := by
  unfold LightGBMError.check_return_value
  split <;> simp [NativeCall.isBoosterFree]

lemma load_no_free (native : NativeLib) (path : String) :
    (Booster.load native path).2.countP (fun e => e.isBoosterFree) = 0 := by
  obtain ⟨nCreate, nLoad, nFeat, nClass, nPred, nErr⟩ := native
  unfold Booster.load
  cases hfind : findNulByte path.data 0 with
  | some pos => simp
  | none =>
    rcases hN : nCreate path with ⟨ret, ni, handle⟩
    rcases hc : LightGBMError.check_return_value ⟨nCreate, nLoad, nFeat, nClass, nPred, nErr⟩ ret with ⟨res, t⟩
    have hcount : t.countP (fun e => e.isBoosterFree) = 0 := by
      have ht := congrArg Prod.snd hc
      simp only at ht
      rw [← ht]
      exact check_return_value_no_free _ ret
    cases res <;> simp_all [List.countP_cons, NativeCall.isBoosterFree]

lemma predict_no_free (native : NativeLib) (b : Booster) (data : List Nat)
    (num_rows num_cols predict_type : Int) :
    (Booster.predict native b data num_rows num_cols predict_type).2.countP
      (fun e => e.isBoosterFree) = 0 := by
  obtain ⟨nCreate, nLoad, nFeat, nClass, nPred, nErr⟩ := native
  unfold Booster.predict
  dsimp only
  split
  · simp
  next len hsome =>
    by_cases hlen : len = data.length
    · rcases h1 : nPred b.handle data C_API_DTYPE_FLOAT64
        num_rows num_cols 1 predict_type 0 (-1) none 0 none with ⟨ret1, out_len, w1⟩
      rcases hc1 : LightGBMError.check_return_value
        ⟨nCreate, nLoad, nFeat, nClass, nPred, nErr⟩ ret1 with ⟨res1, t1⟩
      have hcount1 : t1.countP (fun e => e.isBoosterFree) = 0 := by
        have ht := congrArg Prod.snd hc1
        simp only at ht
        rw [← ht]
        exact check_return_value_no_free _ ret1
      cases res1 with
      | error e =>
        simp_all [List.countP_cons, NativeCall.isBoosterFree]
      | ok u =>
        rcases h2 : nPred b.handle data C_API_DTYPE_FLOAT64
          num_rows num_cols 1 predict_type 0 (-1) none out_len
          (some (List.replicate (i64_as_usize out_len) 0)) with ⟨ret2, l2, w2⟩
        rcases hc2 : LightGBMError.check_return_value
          ⟨nCreate, nLoad, nFeat, nClass, nPred, nErr⟩ ret2 with ⟨res2, t2⟩
        have hcount2 : t2.countP (fun e => e.isBoosterFree) = 0 := by
          have ht := congrArg Prod.snd hc2
          simp only at ht
          rw [← ht]
          exact check_return_value_no_free _ ret2
        cases res2 <;>
          simp_all [List.countP_cons, NativeCall.isBoosterFree]
    · simp [hlen]

lemma load_from_string_no_free (native : NativeLib) (model_str : String) :
    (Booster.load_from_string native model_str).2.countP
      (fun e => e.isBoosterFree) = 0 := by
  obtain ⟨nCreate, nLoad, nFeat, nClass, nPred, nErr⟩ := native
  unfold Booster.load_from_string
  cases hfind : findNulByte model_str.data 0 with
  | some pos => simp
  | none =>
    rcases hN : nLoad model_str with ⟨ret, ni, handle⟩
    rcases hc : LightGBMError.check_return_value
      ⟨nCreate, nLoad, nFeat, nClass, nPred, nErr⟩ ret with ⟨res, t⟩
    have hcount : t.countP (fun e => e.isBoosterFree) = 0 := by
      have ht := congrArg Prod.snd hc
      simp only at ht
      rw [← ht]
      exact check_return_value_no_free _ ret
    cases res <;> simp_all [List.countP_cons, NativeCall.isBoosterFree]

lemma load_from_buffer_no_free (native : NativeLib) (buffer : List Nat) :
    (Booster.load_from_buffer native buffer).2.countP
      (fun e => e.isBoosterFree) = 0 := by
  unfold Booster.load_from_buffer
  cases h : from_utf8 buffer with
  | error e => simp
  | ok s => simpa using load_from_string_no_free native s

lemma num_features_no_free (native : NativeLib) (b : Booster) :
    (Booster.num_features native b).2.countP
      (fun e => e.isBoosterFree) = 0 := by
  obtain ⟨nCreate, nLoad, nFeat, nClass, nPred, nErr⟩ := native
  unfold Booster.num_features
  rcases hN : nFeat b.handle with ⟨ret, n⟩
  rcases hc : LightGBMError.check_return_value
    ⟨nCreate, nLoad, nFeat, nClass, nPred, nErr⟩ ret with ⟨res, t⟩
  have hcount : t.countP (fun e => e.isBoosterFree) = 0 := by
    have ht := congrArg Prod.snd hc
    simp only at ht
    rw [← ht]
    exact check_return_value_no_free _ ret
  cases res <;> simp_all [List.countP_cons, NativeCall.isBoosterFree]

lemma num_classes_no_free (native : NativeLib) (b : Booster) :
    (Booster.num_classes native b).2.countP
      (fun e => e.isBoosterFree) = 0 := by
  obtain ⟨nCreate, nLoad, nFeat, nClass, nPred, nErr⟩ := native
  unfold Booster.num_classes
  rcases hN : nClass b.handle with ⟨ret, n⟩
  rcases hc : LightGBMError.check_return_value
    ⟨nCreate, nLoad, nFeat, nClass, nPred, nErr⟩ ret with ⟨res, t⟩
  have hcount : t.countP (fun e => e.isBoosterFree) = 0 := by
    have ht := congrArg Prod.snd hc
    simp only at ht
    rw [← ht]
    exact check_return_value_no_free _ ret
  cases res <;> simp_all [List.countP_cons, NativeCall.isBoosterFree]

lemma predict_f32_no_free (native : NativeLib) (b : Booster) (data : List Nat)
    (num_rows num_cols predict_type : Int) :
    (Booster.predict_f32 native b data num_rows num_cols predict_type).2.countP
      (fun e => e.isBoosterFree) = 0 := by
  obtain ⟨nCreate, nLoad, nFeat, nClass, nPred, nErr⟩ := native
  unfold Booster.predict_f32
  dsimp only
  split
  · simp
  next len hsome =>
    by_cases hlen : len = data.length
    · rcases h1 : nPred b.handle data C_API_DTYPE_FLOAT32
        num_rows num_cols 1 predict_type 0 (-1) none 0 none with ⟨ret1, out_len, w1⟩
      rcases hc1 : LightGBMError.check_return_value
        ⟨nCreate, nLoad, nFeat, nClass, nPred, nErr⟩ ret1 with ⟨res1, t1⟩
      have hcount1 : t1.countP (fun e => e.isBoosterFree) = 0 := by
        have ht := congrArg Prod.snd hc1
        simp only at ht
        rw [← ht]
        exact check_return_value_no_free _ ret1
      cases res1 with
      | error e =>
        simp_all [List.countP_cons, NativeCall.isBoosterFree]
      | ok u =>
        rcases h2 : nPred b.handle data C_API_DTYPE_FLOAT32
          num_rows num_cols 1 predict_type 0 (-1) none out_len
          (some (List.replicate (i64_as_usize out_len) 0)) with ⟨ret2, l2, w2⟩
        rcases hc2 : LightGBMError.check_return_value
          ⟨nCreate, nLoad, nFeat, nClass, nPred, nErr⟩ ret2 with ⟨res2, t2⟩
        have hcount2 : t2.countP (fun e => e.isBoosterFree) = 0 := by
          have ht := congrArg Prod.snd hc2
          simp only at ht
          rw [← ht]
          exact check_return_value_no_free _ ret2
        cases res2 <;>
          simp_all [List.countP_cons, NativeCall.isBoosterFree]
    · simp [hlen]

/-- **C3.** Destroying a `Booster` issues exactly one free-handle call for
its handle, and no other wrapper operation — any of the three construction
paths, the metadata queries, or either prediction (succeeding or failing) —
ever issues a free-handle call; so each Booster's lifecycle contains exactly
the one release performed by `drop`. -/
theorem drop_frees_exactly_once
    (native : NativeLib) (b : Booster) (path model_str : String)
    (buffer data64 data32 : List Nat) (num_rows num_cols predict_type : Int) :
    Booster.drop b = [NativeCall.boosterFree b.handle] ∧
    (Booster.drop b).countP (fun e => e.isBoosterFree) = 1 ∧
    (Booster.load native path).2.countP (fun e => e.isBoosterFree) = 0 ∧
    (Booster.load_from_string native model_str).2.countP
      (fun e => e.isBoosterFree) = 0 ∧
    (Booster.load_from_buffer native buffer).2.countP
      (fun e => e.isBoosterFree) = 0 ∧
    (Booster.num_features native b).2.countP (fun e => e.isBoosterFree) = 0 ∧
    (Booster.num_classes native b).2.countP (fun e => e.isBoosterFree) = 0 ∧
    (Booster.predict native b data64 num_rows num_cols predict_type).2.countP
      (fun e => e.isBoosterFree) = 0 ∧
    (Booster.predict_f32 native b data32 num_rows num_cols
      predict_type).2.countP (fun e => e.isBoosterFree) = 0 := by
  refine ⟨rfl, by simp [Booster.drop, NativeCall.isBoosterFree],
    load_no_free native path, load_from_string_no_free native model_str,
    load_from_buffer_no_free native buffer, num_features_no_free native b,
    num_classes_no_free native b,
    predict_no_free native b data64 num_rows num_cols predict_type,
    predict_f32_no_free native b data32 num_rows num_cols predict_type⟩

/-- **C4.** The shared translation function succeeds exactly on return code
zero; any non-zero code yields the error fetched from the native last-error
accessor (issuing that native call), and the fetched message is the decoded
last-error text when it is valid UTF-8 and the generic `"Unknown error"`
string otherwise. -/
theorem check_return_value_spec (native : NativeLib) (ret_val : Int) :
    ((LightGBMError.check_return_value native ret_val).1 = .ok () ↔
      ret_val = 0) ∧
    (ret_val = 0 → LightGBMError.check_return_value native ret_val =
      (.ok (), [])) ∧
    (ret_val ≠ 0 → LightGBMError.check_return_value native ret_val =
      (.error (LightGBMError.fetch_lightgbm_error native),
       [NativeCall.getLastError])) ∧
    (∀ s, from_utf8 native.getLastError = .ok s →
      LightGBMError.fetch_lightgbm_error native = { description := s }) ∧
    (∀ e, from_utf8 native.getLastError = .error e →
      LightGBMError.fetch_lightgbm_error native =
        { description := "Unknown error" }) := by
  refine ⟨?_, ?_, ?_, ?_, ?_⟩
  · unfold LightGBMError.check_return_value
    split <;> simp_all
  · intro h
    unfold LightGBMError.check_return_value
    simp [h]
  · intro h
    unfold LightGBMError.check_return_value
    simp [h]
  · intro s hs
    unfold LightGBMError.fetch_lightgbm_error
    simp [hs]
  · intro e he
    unfold LightGBMError.fetch_lightgbm_error
    simp [he]

/-- Witness for C4: with the concrete native library, return code `3` is
non-zero, so translation fetches and decodes `"boom"`, while return code `0`
succeeds without any native call. -/
theorem check_return_value_spec_witness :
    (3 : Int) ≠ 0 ∧
    LightGBMError.check_return_value testNative 3 =
      (.error { description := "boom" }, [NativeCall.getLastError]) ∧
    LightGBMError.check_return_value testNative 0 = (.ok (), []) := by
  refine ⟨by decide, ?_, ?_⟩
  · have h := (check_return_value_spec testNative 3).2.2.1 (by decide)
    rw [h]
    decide
  · exact (check_return_value_spec testNative 0).2.1 rfl

/-- **C5.** For every byte buffer that is not valid UTF-8,
`load_from_buffer` fails with the decode error rendering the UTF-8 failure,
and its native-call trace is empty, so the native load-from-string entry
point is never invoked. -/
theorem load_from_buffer_invalid_utf8
    (native : NativeLib) (buffer : List Nat) (e : Utf8Err)
    (h : from_utf8 buffer = .error e) :
    Booster.load_from_buffer native buffer =
      (.error { description :=
        "Invalid UTF-8 in model buffer: " ++ e.display }, []) := by
  unfold Booster.load_from_buffer
  simp [h]

/-- Witness for C5: the byte `0xFF` is not valid UTF-8; loading it fails
locally with the rendered decode error and an empty trace. -/
theorem load_from_buffer_invalid_utf8_witness :
    from_utf8 [255] = .error ⟨0, some 1⟩ ∧
    Booster.load_from_buffer testNative [255] =
      (.error { description :=
        "Invalid UTF-8 in model buffer: invalid utf-8 sequence of 1 bytes from index 0" },
       []) := by
  refine ⟨by decide, ?_⟩
  have h := load_from_buffer_invalid_utf8 testNative [255] ⟨0, some 1⟩
    (by decide)
  rw [h]
  decide

/-- **C6.** For every byte buffer that decodes as UTF-8 text `s`,
`load_from_buffer` returns exactly the result (value and native-call trace)
of `load_from_string` applied to `s`. -/
theorem load_from_buffer_delegates
    (native : NativeLib) (buffer : List Nat) (s : String)
    (h : from_utf8 buffer = .ok s) :
    Booster.load_from_buffer native buffer =
      Booster.load_from_string native s := by
  unfold Booster.load_from_buffer
  simp [h]

/-- Witness for C6: the bytes of `"hi"` decode to `"hi"`, and loading the
buffer equals loading the string. -/
theorem load_from_buffer_delegates_witness :
    from_utf8 [104, 105] = .ok "hi" ∧
    Booster.load_from_buffer testNative [104, 105] =
      Booster.load_from_string testNative "hi" := by
  exact ⟨by decide,
    load_from_buffer_delegates testNative [104, 105] "hi" (by decide)⟩

/-- **C7.** Whenever the local shape and overflow checks pass (the checked
product equals the buffer length), `predict` and `predict_f32` behave
exactly as the spec's two-phase protocol with their respective element-type
tags: a first native call with null output pointer and zero-initialized
output length (row-major, start iteration 0, all iterations), then a second
call on a zero-initialized buffer of exactly the reported length, whose
filled contents are returned verbatim on success. -/
theorem predict_follows_two_phase
    (native : NativeLib) (b : Booster) (data64 data32 : List Nat)
    (num_rows num_cols predict_type : Int)
    (h64 : usize_checked_mul (i32_as_usize num_rows) (i32_as_usize num_cols)
      = some data64.length)
    (h32 : usize_checked_mul (i32_as_usize num_rows) (i32_as_usize num_cols)
      = some data32.length) :
    Booster.predict native b data64 num_rows num_cols predict_type =
      two_phase_protocol native b.handle data64 C_API_DTYPE_FLOAT64
        num_rows num_cols predict_type ∧
    Booster.predict_f32 native b data32 num_rows num_cols predict_type =
      two_phase_protocol native b.handle data32 C_API_DTYPE_FLOAT32
        num_rows num_cols predict_type := by
  constructor
  · unfold Booster.predict two_phase_protocol
    simp [h64]
  · unfold Booster.predict_f32 two_phase_protocol
    simp [h32]

/-- Witness for C7: a 1×2 input of matching length follows the two-phase
protocol for both element widths. -/
theorem predict_follows_two_phase_witness :
    usize_checked_mul (i32_as_usize 1) (i32_as_usize 2) =
      some ([10, 20] : List Nat).length ∧
    usize_checked_mul (i32_as_usize 1) (i32_as_usize 2) =
      some ([30, 40] : List Nat).length ∧
    (Booster.predict testNative ⟨42⟩ [10, 20] 1 2 0 =
      two_phase_protocol testNative 42 [10, 20] C_API_DTYPE_FLOAT64 1 2 0 ∧
     Booster.predict_f32 testNative ⟨42⟩ [30, 40] 1 2 0 =
      two_phase_protocol testNative 42 [30, 40] C_API_DTYPE_FLOAT32 1 2 0) := by
  exact ⟨by decide, by decide,
    predict_follows_two_phase testNative ⟨42⟩ [10, 20] [30, 40] 1 2 0
      (by decide) (by decide)⟩

/-- **C8.** Loading the same model text twice (through the deterministic
native layer) yields equal Boosters, and predicting with identical
arguments on the two Boosters yields bit-identical results and traces. -/
theorem load_twice_predict_deterministic
    (native : NativeLib) (model_str : String) (b1 b2 : Booster)
    (data : List Nat) (num_rows num_cols predict_type : Int)
    (h1 : (Booster.load_from_string native model_str).1 = .ok b1)
    (h2 : (Booster.load_from_string native model_str).1 = .ok b2) :
    b1 = b2 ∧
    Booster.predict native b1 data num_rows num_cols predict_type =
      Booster.predict native b2 data num_rows num_cols predict_type := by
  have hb : b1 = b2 := by
    have h := h1.symm.trans h2
    exact Except.ok.inj h
  exact ⟨hb, by rw [hb]⟩

/-- Witness for C8: loading `"m"` twice through the concrete native library
yields the same Booster and identical prediction results. -/
theorem load_twice_predict_deterministic_witness :
    (Booster.load_from_string testNative "m").1 = .ok ⟨42⟩ ∧
    ((⟨42⟩ : Booster) = ⟨42⟩ ∧
     Booster.predict testNative ⟨42⟩ [10, 20] 1 2 0 =
      Booster.predict testNative ⟨42⟩ [10, 20] 1 2 0) := by
  exact ⟨by decide,
    load_twice_predict_deterministic testNative "m" ⟨42⟩ ⟨42⟩ [10, 20] 1 2 0
      (by decide) (by decide)⟩

/-- **C9 (counterexample).** The iteration count reported by the native
create-from-model-file call is *not* captured by the resulting Wrapper
Instance: two native libraries that report different iteration counts (5
vs. 9) for the same path produce completely identical `load` results, so no
function of the result can recover the reported count. -/
theorem load_discards_iteration_count :
    (natIterA.createFromModelfile "m").2.1 = 5 ∧
    (natIterB.createFromModelfile "m").2.1 = 9 ∧
    Booster.load natIterA "m" = Booster.load natIterB "m" := by
  decide

/-- **C9 (amended).** For every successful `load`, the resulting Wrapper
Instance captures the native handle reported by the create-from-model-file
call (and the trace is exactly that one native call); the reported
iteration count is received into a local out-parameter and discarded. -/
theorem load_captures_handle
    (native : NativeLib) (path : String) (b : Booster) (t : List NativeCall)
    (h : Booster.load native path = (.ok b, t)) :
    b.handle = (native.createFromModelfile path).2.2 ∧
    t = [NativeCall.createFromModelfile path] := by
  obtain ⟨nCreate, nLoad, nFeat, nClass, nPred, nErr⟩ := native
  unfold Booster.load at h
  dsimp only at h ⊢
  cases hfind : findNulByte path.data 0 with
  | some pos =>
    rw [hfind] at h
    simp at h
  | none =>
    rw [hfind] at h
    rcases hN : nCreate path with ⟨ret, ni, handle⟩
    rw [hN] at h
    dsimp only at h
    rcases hc : LightGBMError.check_return_value
      ⟨nCreate, nLoad, nFeat, nClass, nPred, nErr⟩ ret with ⟨res, t2⟩
    rw [hc] at h
    cases res with
    | error e => simp at h
    | ok u =>
      simp only [Prod.mk.injEq] at h
      obtain ⟨hb, ht⟩ := h
      have hb2 := Except.ok.inj hb
      have ht2 : t2 = (LightGBMError.check_return_value
          ⟨nCreate, nLoad, nFeat, nClass, nPred, nErr⟩ ret).2 := by rw [hc]
      have hret : ret = 0 := by
        by_contra hne
        have := congrArg Prod.fst hc
        unfold LightGBMError.check_return_value at this
        rw [if_neg hne] at this
        simp at this
      constructor
      · rw [← hb2]
      · rw [← ht, ht2]
        unfold LightGBMError.check_return_value
        rw [if_pos hret]

/-- Witness for the amended C9: loading `"m"` through the concrete native
library succeeds with handle 42, which is exactly what the Booster holds. -/
theorem load_captures_handle_witness :
    Booster.load testNative "m" =
      (.ok ⟨42⟩, [NativeCall.createFromModelfile "m"]) ∧
    ((⟨42⟩ : Booster).handle = (testNative.createFromModelfile "m").2.2 ∧
     [NativeCall.createFromModelfile "m"] =
       [NativeCall.createFromModelfile "m"]) := by
  exact ⟨by decide,
    load_captures_handle testNative "m" ⟨42⟩ [NativeCall.createFromModelfile "m"]
      (by decide)⟩

/-- **C10.** On the 64-bit model, `predict` does not reject negative counts
as such: with `num_rows = -1`, `num_cols = 0` and an empty data slice the
cast makes the checked product `some 0`, both local checks pass, and the
first native call issued carries the negative row count `-1`. -/
theorem predict_accepts_negative_row_count
    (native : NativeLib) (b : Booster) (predict_type : Int) :
    usize_checked_mul (i32_as_usize (-1)) (i32_as_usize 0) =
      some ([] : List Nat).length ∧
    (-1 : Int) < 0 ∧
    (Booster.predict native b [] (-1) 0 predict_type).2.head? =
      some (NativeCall.predictForMat b.handle [] C_API_DTYPE_FLOAT64
        (-1) 0 1 predict_type 0 (-1) none 0 none) := by
  refine ⟨by decide, by decide, ?_⟩
  obtain ⟨nCreate, nLoad, nFeat, nClass, nPred, nErr⟩ := native
  unfold Booster.predict
  dsimp only
  rw [show usize_checked_mul (i32_as_usize (-1)) (i32_as_usize 0) = some 0 from
    by decide]
  dsimp only
  rcases h1 : nPred b.handle [] C_API_DTYPE_FLOAT64 (-1) 0 1 predict_type
    0 (-1) none 0 none with ⟨ret1, out_len, w1⟩
  rcases hc1 : LightGBMError.check_return_value
    ⟨nCreate, nLoad, nFeat, nClass, nPred, nErr⟩ ret1 with ⟨res1, t1⟩
  cases res1 with
  | error e => simp [h1, hc1]
  | ok u =>
    rcases h2 : nPred b.handle [] C_API_DTYPE_FLOAT64 (-1) 0 1 predict_type
      0 (-1) none out_len (some (List.replicate (i64_as_usize out_len) 0))
      with ⟨ret2, l2, w2⟩
    rcases hc2 : LightGBMError.check_return_value
      ⟨nCreate, nLoad, nFeat, nClass, nPred, nErr⟩ ret2 with ⟨res2, t2⟩
    cases res2 <;> simp [h1, hc1, h2, hc2]
